import Mathlib

/-!
Verification of the squoosh-api repository (a FastAPI service that drives the
external squoosh.app web application to recompress images).

The embedding below translates the pure logic of the sources:
  src/services/squoosh_service.py  (SquooshService)
  src/routes/compression.py        (the /compress/base64 route)
  src/models/schemas.py            (pydantic request validation)
  src/main.py                      (global exception handler)
Byte buffers are `List Nat`; Python float arithmetic on sizes is modelled with
exact rationals; Python `round` is round-half-to-even; exceptions are `Except`;
the external effects (Chrome driver creation, PIL image validation, the
squoosh.app browser session) are an explicit oracle (`World`), and filesystem
and browser resources are an explicit `ResourceState` threaded through the
code paths exactly as the source acquires and releases them.
-/

namespace Squoosh

/-- Byte buffers: only lengths and identity of the bytes matter to the claims. -/
abbrev Bytes := List Nat

/-- Round a rational to the nearest integer, ties to even: the rounding mode of
the Python built-in `round`. -/
def roundHalfEven (q : ℚ) : ℤ :=
  let f : ℤ := ⌊q⌋
  let r : ℚ := q - (f : ℚ)
  if r < 1/2 then f
  else if 1/2 < r then f + 1
  else if f % 2 = 0 then f else f + 1

/-- Python `round(x, 2)`: round to 2 decimal places, ties to even. -/
def round2 (q : ℚ) : ℚ := (roundHalfEven (q * 100) : ℚ) / 100

/-- The statistics dictionary built by `get_compression_stats`
(src/services/squoosh_service.py lines 385-390), and the pydantic model
`CompressionStats` (src/models/schemas.py lines 45-50). -/
structure CompressionStats where
  original_size : ℕ
  compressed_size : ℕ
  reduction_percent : ℚ
  compression_ratio : ℚ
deriving Repr, DecidableEq

/-- Python runtime errors that the embedded arithmetic can raise. -/
inductive PyError where
  | zeroDivision
deriving Repr, DecidableEq

/-- `SquooshService.get_compression_stats` (src/services/squoosh_service.py
lines 379-390).  Python raises `ZeroDivisionError` when a divisor is zero;
`reduction_percent` (which divides by `original_size`, line 383) is computed
before the returned dictionary evaluates `original_size / compressed_size`
(line 389), so an empty original fails first, then an empty compressed. -/
def get_compression_stats (original_bytes compressed_bytes : Bytes) :
    Except PyError CompressionStats :=
  let original_size := original_bytes.length
  let compressed_size := compressed_bytes.length
  if original_size = 0 then .error .zeroDivision
  else if compressed_size = 0 then .error .zeroDivision
  else .ok
    { original_size := original_size
      compressed_size := compressed_size
      reduction_percent :=
        round2 ((((original_size : ℚ) - (compressed_size : ℚ)) / (original_size : ℚ)) * 100)
      compression_ratio := round2 ((original_size : ℚ) / (compressed_size : ℚ)) }

/-- Python `str.lower()`.  All format tokens and filename extensions in the
source are ASCII, where Python lowercasing maps each character A-Z to its
lowercase form, exactly `Char.toLower` applied characterwise. -/
def pyLower (s : String) : String := String.mk (s.data.map Char.toLower)

/-- The `format_map` dictionary of `SquooshService._set_format`
(src/services/squoosh_service.py lines 216-226), as an association list in
source order. -/
def format_map : List (String × String) :=
  [("webp", "webP"),
   ("mozjpeg", "mozJPEG"),
   ("jpg", "mozJPEG"),
   ("jpeg", "mozJPEG"),
   ("avif", "avif"),
   ("oxipng", "oxiPNG"),
   ("png", "oxiPNG"),
   ("browserjpeg", "browserJPEG"),
   ("browserpng", "browserPNG")]

/-- `format_value = format_map.get(format_type.lower(), "webP")`
(src/services/squoosh_service.py line 228): the value written into the
squoosh.app format selector. -/
def format_value (format_type : String) : String :=
  (List.lookup (pyLower format_type) format_map).getD "webP"

/-- The formats for which `_set_format` adjusts the quality slider
(src/services/squoosh_service.py line 241). -/
def quality_adjustable (format_type : String) : Bool :=
  pyLower format_type ∈ ["webp", "mozjpeg", "jpg", "jpeg", "avif"]

/-- Index of the last occurrence of a character in a list, if any
(Python `str.rfind` restricted to single characters). -/
def lastIdxOf (c : Char) : List Char → Option ℕ
  | [] => none
  | a :: t =>
      match lastIdxOf c t with
      | some i => some (i + 1)
      | none => if a = c then some 0 else none

/-- Python `str.rfind`: the last index of the character, or -1 if absent. -/
def rfindZ (c : Char) (l : List Char) : ℤ :=
  match lastIdxOf c l with
  | none => -1
  | some i => (i : ℤ)

/-- The extension component of `os.path.splitext` (posixpath): the suffix from
the last dot, provided that dot lies after the last path separator and the
basename has at least one non-dot character before it (so dotfiles such as
.bashrc have no extension). -/
def splitext_ext (p : List Char) : List Char :=
  let sepIndex := rfindZ '/' p
  let dotIndex := rfindZ '.' p
  if sepIndex < dotIndex then
    let filenameIndex := sepIndex + 1
    if ((p.drop filenameIndex.toNat).take (dotIndex - filenameIndex).toNat).any
        (fun c => c != '.') then
      p.drop dotIndex.toNat
    else []
  else []

/-- `SquooshService._get_file_extension` (src/services/squoosh_service.py
lines 339-342): the extension of the lowercased filename, or .jpg when there
is none. -/
def _get_file_extension (filename : String) : String :=
  let ext := splitext_ext (pyLower filename).data
  if ext.isEmpty then ".jpg" else String.mk ext

/-- Python `str.endswith`. -/
def pyEndsWith (s suffix : String) : Bool := suffix.data.isSuffixOf s.data

/-- The extension list of the filename field validator
(src/models/schemas.py line 40). -/
def known_exts : List String := [".jpg", ".jpeg", ".png", ".webp", ".bmp", ".tiff"]

/-- The pydantic field validator `validate_filename`
(src/models/schemas.py lines 38-42): a truthy filename (non-None, non-empty)
whose lowercase form ends in none of the known extensions gets .jpg appended;
anything else is returned unchanged. -/
def validate_filename (v : Option String) : Option String :=
  match v with
  | none => none
  | some s =>
      if s ≠ "" ∧ (known_exts.any fun ext => pyEndsWith (pyLower s) ext) = false then
        some (s ++ ".jpg")
      else some s

/-- Python `v or default` on an optional string: None and the empty string are
falsy and give the default (src/routes/compression.py lines 55 and 77). -/
def pyOrStr (v : Option String) (d : String) : String :=
  match v with
  | none => d
  | some s => if s = "" then d else s

/-- The `CompressionFormat` enumeration (src/models/schemas.py lines 7-15). -/
inductive CompressionFormat where
  | webp
  | mozjpeg
  | avif
  | oxipng
  | jpeg
  | jpg
  | png
deriving Repr, DecidableEq

/-- The `.value` of each enumeration member. -/
def CompressionFormat.value : CompressionFormat → String
  | .webp => "webp"
  | .mozjpeg => "mozjpeg"
  | .avif => "avif"
  | .oxipng => "oxipng"
  | .jpeg => "jpeg"
  | .jpg => "jpg"
  | .png => "png"

/-- A validated `CompressionRequest` (src/models/schemas.py lines 18-23). -/
structure CompressionRequest where
  image_base64 : String
  format : CompressionFormat
  quality : ℤ
  filename : Option String
deriving Repr, DecidableEq

/-- Errors of the pydantic boundary validation. -/
inductive ValidationError where
  | invalidQuality
deriving Repr, DecidableEq

/-- Pydantic validation of CompressionRequest (src/models/schemas.py lines
18-42): the quality field carries `Field(ge=1, le=100)`, so any value outside
[1,100] is rejected when the request object is built, before the route body
(and hence before any base64 or image decode) runs; the filename field passes
through `validate_filename`.  The base64 well-formedness validator concerns no
claim and is not modelled. -/
def parse_compression_request (image_base64 : String) (format : CompressionFormat)
    (quality : ℤ) (filename : Option String) : Except ValidationError CompressionRequest :=
  if quality < 1 ∨ 100 < quality then .error .invalidQuality
  else .ok
    { image_base64 := image_base64
      format := format
      quality := quality
      filename := validate_filename filename }

/-- Outcome of `_compress_with_squoosh` (src/services/squoosh_service.py lines
177-210): either the browser session downloads a compressed file with these
bytes, or some step raises and the method re-raises
`Exception(f"Error in Squoosh: {e}")`. -/
inductive SquooshOutcome where
  | downloaded (bytes : Bytes)
  | error (msg : String)

/-- Oracle for the effects outside this repository: whether Chrome driver
creation succeeds (and the text of the underlying error when not), whether PIL
accepts the input bytes as a valid image, and what the squoosh.app browser
session does given the format selector value and quality that
`_set_format` writes into its UI. -/
structure World where
  driverOk : Bool
  driverErr : String
  imageValid : Bool
  squoosh : String → ℤ → SquooshOutcome

/-- The scoped resources of one request: the temporary directory made by
`SquooshService.__init__`, the Chrome WebDriver, the temporary input file
(recorded with its extension) and the downloaded output file, both of which
live inside the temporary directory. -/
structure ResourceState where
  tempDir : Bool
  driver : Bool
  tempInputExt : Option String
  downloadFile : Bool
deriving Repr, DecidableEq

/-- The state in which every request-scoped resource has been released. -/
def resources_released : ResourceState :=
  { tempDir := false, driver := false, tempInputExt := none, downloadFile := false }

/-- What a call to `compress_image_from_bytes` produces: its return value or
raised exception text, the format selector value it sent to squoosh.app (on
the path that reaches the download), the temp-file extension it used, and the
resource state it leaves behind. -/
structure CompressOutput where
  result : Except String (Option Bytes)
  formatSent : Option String
  tempExtUsed : Option String
  state : ResourceState

/-- `SquooshService.compress_image_from_bytes`
(src/services/squoosh_service.py lines 116-175).  Lines 139-140 create the
driver when absent (`create_driver` raises
`Exception(f"Error configuring Chrome driver: {e}")` on failure, re-raised at
line 175 wrapped in `Error compressing image:` with `temp_input_path` still
None, so nothing is cleaned).  Lines 143-147 validate the bytes with PIL and
raise `ValueError("Bytes do not correspond to a valid image")` when invalid.
Lines 150-154 write the temporary input file, whose extension comes from
`_get_file_extension(original_filename)`.  Line 157 runs
`_compress_with_squoosh`, which sets the format selector to
`format_value format_type` and the quality slider to `quality` and either
downloads a file or raises; on a raise, lines 171-175 remove the temporary
input file and re-raise wrapped.  Lines 159-167 read the downloaded file,
remove both temporary files and return the bytes. -/
def compress_image_from_bytes (image_bytes : Bytes) (format_type : String)
    (quality : ℤ) (original_filename : String) (w : World) (st : ResourceState) :
    CompressOutput :=
  if st.driver = false ∧ w.driverOk = false then
    { result := .error ("Error compressing image: Error configuring Chrome driver: " ++ w.driverErr)
      formatSent := none
      tempExtUsed := none
      state := st }
  else
    let st := { st with driver := true }
    if w.imageValid = false then
      { result := .error "Error compressing image: Bytes do not correspond to a valid image"
        formatSent := none
        tempExtUsed := none
        state := st }
    else
      let ext := _get_file_extension original_filename
      let st := { st with tempInputExt := some ext }
      match w.squoosh (format_value format_type) quality with
      | .error msg =>
          { result := .error ("Error compressing image: Error in Squoosh: " ++ msg)
            formatSent := none
            tempExtUsed := some ext
            state := { st with tempInputExt := none } }
      | .downloaded bytes =>
          let st := { st with downloadFile := true }
          { result := .ok (some bytes)
            formatSent := some (format_value format_type)
            tempExtUsed := some ext
            state := { st with tempInputExt := none, downloadFile := false } }

/-- `SquooshService.close` (src/services/squoosh_service.py lines 354-377):
quits the WebDriver and removes the whole temporary directory tree; the
temporary input file and the downloaded file live inside that directory, so
removing it releases them too. -/
def squoosh_close (st : ResourceState) : ResourceState :=
  { tempDir := false, driver := false, tempInputExt := none, downloadFile := false }

/-- The success response model `CompressionResponse`
(src/models/schemas.py lines 53-60).  The source stores the compressed bytes
base64-encoded (src/routes/compression.py line 68); base64 encoding is an
injective, emptiness-preserving serialization, so the field holds the raw
bytes here. -/
structure CompressionResponse where
  success : Bool := true
  compressed_image : Bytes
  format : String
  quality : ℤ
  stats : CompressionStats
  filename : String
deriving Repr, DecidableEq

/-- What the route hands back to FastAPI: a response model or an
HTTPException with a status code and detail string. -/
inductive RouteResult where
  | ok (resp : CompressionResponse)
  | httpError (status : ℕ) (detail : String)
deriving Repr, DecidableEq

/-- Whether a route result is a success response. -/
def RouteResult.isOk : RouteResult → Bool
  | .ok _ => true
  | .httpError _ _ => false

/-- The compressed bytes of a success response. -/
def RouteResult.okBytes : RouteResult → Option Bytes
  | .ok r => some r.compressed_image
  | .httpError _ _ => none

/-- The format field of a success response. -/
def RouteResult.okFormat : RouteResult → Option String
  | .ok r => some r.format
  | .httpError _ _ => none

/-- The quality field of a success response. -/
def RouteResult.okQuality : RouteResult → Option ℤ
  | .ok r => some r.quality
  | .httpError _ _ => none

/-- The route `compress_image_base64` (src/routes/compression.py lines
20-94), from the point where the base64 payload has been decoded to `decoded`
(lines 35-42; the pydantic validator already guaranteed decodability).  Line
45 constructs SquooshService, creating the temporary directory; line 48
creates the driver; line 51 calls `compress_image_from_bytes`; lines 58-62
raise HTTPException 500 when the result is falsy (None or empty bytes); line
65 computes the statistics (a ZeroDivisionError there is caught by the
`except Exception` at line 82 as `Internal server error: division by zero`);
lines 72-78 build the response, echoing `request.format.value`,
`request.quality` and `request.filename or "image.jpg"`.  Any non-HTTP
exception becomes HTTPException 500 with detail
`f"Internal server error: {str(e)}"` (lines 82-87), and the `finally` block
(lines 88-94) always calls `squoosh.close()`. -/
def compress_image_base64 (request : CompressionRequest) (decoded : Bytes) (w : World) :
    RouteResult × ResourceState :=
  let st0 : ResourceState :=
    { tempDir := true, driver := false, tempInputExt := none, downloadFile := false }
  if w.driverOk = false then
    (.httpError 500 ("Internal server error: Error configuring Chrome driver: " ++ w.driverErr),
      squoosh_close st0)
  else
    let st1 := { st0 with driver := true }
    let out := compress_image_from_bytes decoded request.format.value request.quality
      (pyOrStr request.filename "image.jpg") w st1
    match out.result with
    | .error msg =>
        (.httpError 500 ("Internal server error: " ++ msg), squoosh_close out.state)
    | .ok obytes =>
        match obytes with
        | none =>
            (.httpError 500 "Error during image compression", squoosh_close out.state)
        | some compressed =>
            if compressed.length = 0 then
              (.httpError 500 "Error during image compression", squoosh_close out.state)
            else
              match get_compression_stats decoded compressed with
              | .error _ =>
                  (.httpError 500 "Internal server error: division by zero",
                    squoosh_close out.state)
              | .ok stats =>
                  (.ok { compressed_image := compressed
                         format := request.format.value
                         quality := request.quality
                         stats := stats
                         filename := pyOrStr request.filename "image.jpg" },
                    squoosh_close out.state)

/-- The error body of the `ErrorResponse` model (src/models/schemas.py lines
63-67) as produced by the global exception handler. -/
structure ErrorResponse where
  success : Bool
  error : String
  details : Option String
deriving Repr, DecidableEq

/-- `global_exception_handler` (src/main.py lines 75-85): a structured JSON
body with a fixed human-readable message; the raw exception text appears in
`details` only when the DEBUG environment variable is truthy. -/
def global_exception_handler (debug : Bool) (exc : String) : ErrorResponse :=
  { success := false
    error := "Internal server error"
    details := if debug then some exc else none }

end Squoosh

namespace Squoosh

/-- A successful association-list lookup returns one of the stored values. -/
theorem mem_values_of_lookup {α β : Type} [BEq α] (k : α) (v : β) :
    ∀ l : List (α × β), List.lookup k l = some v → v ∈ l.map Prod.snd := by
  intro l
  induction l with
  | nil => intro h; simp [List.lookup] at h
  | cons p t ih =>
      intro h
      rw [List.lookup] at h
      by_cases hk : (k == p.1) = true
      · simp [hk] at h
        simp [← h]
      · rw [Bool.not_eq_true] at hk
        rw [hk] at h
        simp [ih h]

/-- A lookup for a key absent from the association list returns none. -/
theorem lookup_eq_none_of_not_mem {α β : Type} [BEq α] [LawfulBEq α] (k : α) :
    ∀ l : List (α × β), k ∉ l.map Prod.fst → List.lookup k l = none := by
  intro l
  induction l with
  | nil => intro _; rfl
  | cons p t ih =>
      intro h
      simp only [List.map, List.mem_cons, not_or] at h
      rw [List.lookup]
      have : (k == p.1) = false := beq_false_of_ne h.1
      rw [this]
      exact ih (by simpa using h.2)

/-- C1: For every pair of non-empty byte buffers, the stats operation returns
the original length, the compressed length, the reduction percentage
`(len original - len compressed) / len original * 100` rounded to 2 decimals,
and the ratio `len original / len compressed` rounded to 2 decimals.  It is a
pure function of the two buffers (no I/O). -/
theorem get_compression_stats_formula (original compressed : Bytes)
    (ho : original ≠ []) (hc : compressed ≠ []) :
    get_compression_stats original compressed = .ok
      { original_size := original.length
        compressed_size := compressed.length
        reduction_percent :=
          round2 ((((original.length : ℚ) - (compressed.length : ℚ)) / (original.length : ℚ)) * 100)
        compression_ratio := round2 ((original.length : ℚ) / (compressed.length : ℚ)) } := by
  have h1 : original.length ≠ 0 := by simpa [List.length_eq_zero] using ho
  have h2 : compressed.length ≠ 0 := by simpa [List.length_eq_zero] using hc
  simp [get_compression_stats, h1, h2]

/-- Witness for C1 at a concrete input: 4 original bytes against 2 compressed
bytes give a 50.00 percent reduction and a 2.00 ratio. -/
theorem get_compression_stats_formula_witness :
    get_compression_stats [0, 0, 0, 0] [0, 0] = .ok
      { original_size := List.length ([0, 0, 0, 0] : Bytes)
        compressed_size := List.length ([0, 0] : Bytes)
        reduction_percent :=
          round2 (((((List.length ([0, 0, 0, 0] : Bytes)) : ℚ) -
            ((List.length ([0, 0] : Bytes)) : ℚ)) / ((List.length ([0, 0, 0, 0] : Bytes)) : ℚ)) * 100)
        compression_ratio :=
          round2 (((List.length ([0, 0, 0, 0] : Bytes)) : ℚ) /
            ((List.length ([0, 0] : Bytes)) : ℚ)) } :=
  get_compression_stats_formula [0, 0, 0, 0] [0, 0] (by decide) (by decide)

/-- C2: at the failing input (a one-byte original, an empty compressed buffer)
the code reaches the division `original_size / compressed_size` with a zero
divisor and raises `ZeroDivisionError`; there is no `DegenerateInput` guard in
`get_compression_stats`. -/
theorem get_compression_stats_empty_compressed_zero_division :
    get_compression_stats [0] [] = .error .zeroDivision := rfl

/-- C4: format-token normalization is total and case-insensitive: every token
maps to exactly one of the six selector values of the map; jpg, jpeg and
mozjpeg all select the mozJPEG (JPEG) encoder family; png and oxipng both
select the oxiPNG (PNG) family; tokens equal up to letter case select the same
family; and every unrecognized token falls back to webP. -/
theorem format_normalization_total :
    (∀ s : String,
        format_value s = "webP" ∨ format_value s = "mozJPEG" ∨ format_value s = "avif" ∨
        format_value s = "oxiPNG" ∨ format_value s = "browserJPEG" ∨
        format_value s = "browserPNG") ∧
    (format_value "jpg" = "mozJPEG" ∧ format_value "jpeg" = "mozJPEG" ∧
      format_value "mozjpeg" = "mozJPEG") ∧
    (format_value "png" = "oxiPNG" ∧ format_value "oxipng" = "oxiPNG") ∧
    (∀ s t : String, pyLower s = pyLower t → format_value s = format_value t) ∧
    (∀ s : String, pyLower s ∉ format_map.map Prod.fst → format_value s = "webP") := by
  refine ⟨?_, ⟨by decide, by decide, by decide⟩, ⟨by decide, by decide⟩, ?_, ?_⟩
  · intro s
    unfold format_value
    cases h : List.lookup (pyLower s) format_map with
    | none => simp
    | some v =>
        have hv := mem_values_of_lookup (pyLower s) v format_map h
        simp only [format_map, List.map, List.mem_cons, List.not_mem_nil, or_false] at hv
        simp only [Option.getD_some]
        rcases hv with h | h | h | h | h | h | h | h | h <;> simp [h]
  · intro s t h
    unfold format_value
    rw [h]
  · intro s h
    unfold format_value
    rw [lookup_eq_none_of_not_mem (pyLower s) format_map h]
    rfl

/-- Witness for C4 at concrete tokens: JPG and jpg differ only in case and
normalize alike, and the unrecognized token zstd falls back to webP. -/
theorem format_normalization_total_witness :
    format_value "JPG" = format_value "jpg" ∧ format_value "zstd" = "webP" :=
  ⟨format_normalization_total.2.2.2.1 "JPG" "jpg" (by decide),
   format_normalization_total.2.2.2.2 "zstd" (by decide)⟩

/-- C3 counterexample: the token avif does not normalize to the WebP encoder
family; `format_map` sends it to the native avif selector value, which differs
from the webP value selected for the webp token. -/
theorem avif_counterexample :
    format_value "avif" = "avif" ∧ format_value "webp" = "webP" ∧
      ("avif" : String) ≠ "webP" := by
  refine ⟨by decide, by decide, by decide⟩

/-- C3 amended: requesting avif selects the native avif encoder option of
squoosh.app (no WebP substitution happens for avif, and the code carries no
fallback flag); only tokens absent from `format_map` silently normalize to
webP. -/
theorem avif_maps_to_native_avif :
    format_value "avif" = "avif" ∧
    (∀ s : String, pyLower s ∉ format_map.map Prod.fst → format_value s = "webP") := by
  refine ⟨by decide, ?_⟩
  intro s h
  unfold format_value
  rw [lookup_eq_none_of_not_mem (pyLower s) format_map h]
  rfl

/-- Witness for C3 amended: the unrecognized token gif silently falls back to
webP. -/
theorem avif_maps_to_native_avif_witness :
    format_value "gif" = "webP" :=
  avif_maps_to_native_avif.2 "gif" (by decide)

/-- C6 counterexample: a successful call that requested jpg carries the
requested token "jpg" in its format field, while the encoder family actually
selected in the squoosh.app UI is the normalized value mozJPEG, a different
string; so the response does not carry the normalized format actually used. -/
theorem response_format_not_normalized :
    (compress_image_base64
        { image_base64 := "", format := .jpg, quality := 80, filename := none } [0]
        { driverOk := true, driverErr := "", imageValid := true,
          squoosh := fun _ _ => .downloaded [1] }).1.okFormat = some "jpg" ∧
    (compress_image_from_bytes [0] "jpg" 80 "image.jpg"
        { driverOk := true, driverErr := "", imageValid := true,
          squoosh := fun _ _ => .downloaded [1] }
        { tempDir := true, driver := true, tempInputExt := none,
          downloadFile := false }).formatSent = some "mozJPEG" ∧
    ("jpg" : String) ≠ "mozJPEG" := by
  refine ⟨rfl, by decide, by decide⟩

/-- C6 amended: every successful call returns non-empty output bytes, the
requested format token echoed verbatim (not the normalized encoder value
actually sent to the encoder), and the requested quality echoed verbatim. -/
theorem response_echoes_request (request : CompressionRequest) (decoded : Bytes) (w : World)
    (h : (compress_image_base64 request decoded w).1.isOk = true) :
    (compress_image_base64 request decoded w).1.okBytes ≠ some [] ∧
    (compress_image_base64 request decoded w).1.okFormat = some request.format.value ∧
    (compress_image_base64 request decoded w).1.okQuality = some request.quality := by
  by_cases hd : w.driverOk = false
  · simp [compress_image_base64, hd, RouteResult.isOk] at h
  · by_cases hi : w.imageValid = false
    · simp [compress_image_base64, compress_image_from_bytes, hd, hi, RouteResult.isOk] at h
    · cases hsq : w.squoosh (format_value request.format.value) request.quality with
      | error msg =>
          simp [compress_image_base64, compress_image_from_bytes, hd, hi, hsq,
            RouteResult.isOk] at h
      | downloaded bytes =>
          by_cases hb : bytes.length = 0
          · simp [compress_image_base64, compress_image_from_bytes, hd, hi, hsq, hb,
              RouteResult.isOk] at h
          · cases hst : get_compression_stats decoded bytes with
            | error e =>
                simp [compress_image_base64, compress_image_from_bytes, hd, hi, hsq, hb, hst,
                  RouteResult.isOk] at h
            | ok stats =>
                have hbne : bytes ≠ [] := by simpa [List.length_eq_zero] using hb
                simp [compress_image_base64, compress_image_from_bytes, hd, hi, hsq, hb, hst,
                  RouteResult.okBytes, RouteResult.okFormat, RouteResult.okQuality, hbne]

/-- Witness for C6 amended at a concrete successful call. -/
theorem response_echoes_request_witness :
    (compress_image_base64
        { image_base64 := "", format := .jpg, quality := 80, filename := none } [0]
        { driverOk := true, driverErr := "", imageValid := true,
          squoosh := fun _ _ => .downloaded [1] }).1.okBytes ≠ some [] ∧
    (compress_image_base64
        { image_base64 := "", format := .jpg, quality := 80, filename := none } [0]
        { driverOk := true, driverErr := "", imageValid := true,
          squoosh := fun _ _ => .downloaded [1] }).1.okFormat = some "jpg" ∧
    (compress_image_base64
        { image_base64 := "", format := .jpg, quality := 80, filename := none } [0]
        { driverOk := true, driverErr := "", imageValid := true,
          squoosh := fun _ _ => .downloaded [1] }).1.okQuality = some 80 :=
  response_echoes_request
    { image_base64 := "", format := .jpg, quality := 80, filename := none } [0]
    { driverOk := true, driverErr := "", imageValid := true,
      squoosh := fun _ _ => .downloaded [1] } rfl

/-- C7 counterexample: invoked directly with the out-of-range quality 101, a
valid image and a successful browser session, the compressor component
returns the compressed bytes instead of failing: it silently accepts the
out-of-range value. -/
theorem component_accepts_out_of_range_quality :
    (compress_image_from_bytes [0] "webp" 101 "image.jpg"
        { driverOk := true, driverErr := "", imageValid := true,
          squoosh := fun _ _ => .downloaded [1] }
        { tempDir := true, driver := true, tempInputExt := none,
          downloadFile := false }).result = .ok (some [1]) := rfl

/-- C7 amended: quality outside [1,100] is rejected by the pydantic boundary
validation when the request object is built, before any decode; the
compressor component itself performs no quality validation and silently
accepts an out-of-range value such as 101, passing it through to the
encoder. -/
theorem quality_checked_at_boundary_only :
    (∀ (b : String) (fmt : CompressionFormat) (q : ℤ) (f : Option String),
        q < 1 ∨ 100 < q →
        parse_compression_request b fmt q f = .error .invalidQuality) ∧
    (∀ (img : Bytes) (fmt : String) (f : String) (w : World) (st : ResourceState)
        (bytes : Bytes),
        st.driver = true → w.imageValid = true →
        w.squoosh (format_value fmt) 101 = .downloaded bytes →
        (compress_image_from_bytes img fmt 101 f w st).result = .ok (some bytes)) := by
  constructor
  · intro b fmt q f hq
    unfold parse_compression_request
    rw [if_pos hq]
  · intro img fmt f w st bytes hdr hi hsq
    simp [compress_image_from_bytes, hdr, hi, hsq]

/-- Witness for C7 amended: quality 0 is rejected at the boundary, and the
component accepts quality 101 on a concrete input. -/
theorem quality_checked_at_boundary_only_witness :
    parse_compression_request "" .webp 0 none = .error .invalidQuality ∧
    (compress_image_from_bytes [0] "webp" 101 "f"
        { driverOk := true, driverErr := "", imageValid := true,
          squoosh := fun _ _ => .downloaded [1] }
        { tempDir := true, driver := true, tempInputExt := none,
          downloadFile := false }).result = .ok (some [1]) :=
  ⟨quality_checked_at_boundary_only.1 "" .webp 0 none (Or.inl (by decide)),
   quality_checked_at_boundary_only.2 [0] "webp" "f"
     { driverOk := true, driverErr := "", imageValid := true,
       squoosh := fun _ _ => .downloaded [1] }
     { tempDir := true, driver := true, tempInputExt := none, downloadFile := false }
     [1] rfl rfl rfl⟩

/-- C8: on every path of the route (driver failure, invalid image, browser
session failure, falsy compression result, statistics failure, success) the
`finally` block closes the service, quitting the WebDriver and removing the
temporary directory together with the temporary input and download files
inside it, so every request-scoped resource is released before the route
returns. -/
theorem route_releases_all_resources (request : CompressionRequest) (decoded : Bytes)
    (w : World) :
    (compress_image_base64 request decoded w).2 = resources_released := by
  by_cases hd : w.driverOk = false
  · simp [compress_image_base64, hd, squoosh_close, resources_released]
  · by_cases hi : w.imageValid = false
    · simp [compress_image_base64, compress_image_from_bytes, hd, hi, squoosh_close,
        resources_released]
    · cases hsq : w.squoosh (format_value request.format.value) request.quality with
      | error msg =>
          simp [compress_image_base64, compress_image_from_bytes, hd, hi, hsq,
            squoosh_close, resources_released]
      | downloaded bytes =>
          by_cases hb : bytes.length = 0
          · simp [compress_image_base64, compress_image_from_bytes, hd, hi, hsq, hb,
              squoosh_close, resources_released]
          · cases hst : get_compression_stats decoded bytes with
            | error e =>
                simp [compress_image_base64, compress_image_from_bytes, hd, hi, hsq, hb,
                  hst, squoosh_close, resources_released]
            | ok stats =>
                simp [compress_image_base64, compress_image_from_bytes, hd, hi, hsq, hb,
                  hst, squoosh_close, resources_released]

/-- C9 counterexample: on an internal failure caught inside the route, the
HTTP detail string is built by appending the raw internal exception text
(here the browser-session error boom) with no debug gate at all, so raw
internal exception text reaches the error response while no debug flag is
set. -/
theorem route_error_detail_leaks_exception_text :
    (compress_image_base64
        { image_base64 := "", format := .webp, quality := 80, filename := none } [0]
        { driverOk := true, driverErr := "", imageValid := true,
          squoosh := fun _ _ => .error "boom" }).1 =
      .httpError 500
        ("Internal server error: Error compressing image: Error in Squoosh: " ++ "boom") := rfl

/-- C9 amended: the global exception handler returns a structured error object
with a fixed human-readable message and includes the raw exception text only
when the debug flag is set; the route-level handler, however, puts the raw
exception text into the HTTP error detail unconditionally. -/
theorem error_responses_structured :
    (∀ exc : String, global_exception_handler false exc =
        { success := false, error := "Internal server error", details := none }) ∧
    (∀ exc : String, global_exception_handler true exc =
        { success := false, error := "Internal server error", details := some exc }) ∧
    (∀ (request : CompressionRequest) (decoded : Bytes) (w : World) (msg : String),
        w.driverOk = true → w.imageValid = true →
        w.squoosh (format_value request.format.value) request.quality = .error msg →
        (compress_image_base64 request decoded w).1 =
          .httpError 500
            ("Internal server error: " ++
              ("Error compressing image: Error in Squoosh: " ++ msg))) := by
  refine ⟨fun exc => rfl, fun exc => rfl, ?_⟩
  intro request decoded w msg hd hi hsq
  simp [compress_image_base64, compress_image_from_bytes, hd, hi, hsq]

/-- Witness for C9 amended at a concrete failing session. -/
theorem error_responses_structured_witness :
    (compress_image_base64
        { image_base64 := "", format := .webp, quality := 80, filename := none } [0]
        { driverOk := true, driverErr := "", imageValid := true,
          squoosh := fun _ _ => .error "boom" }).1 =
      .httpError 500
        ("Internal server error: Error compressing image: Error in Squoosh: " ++ "boom") :=
  error_responses_structured.2.2
    { image_base64 := "", format := .webp, quality := 80, filename := none } [0]
    { driverOk := true, driverErr := "", imageValid := true,
      squoosh := fun _ _ => .error "boom" } "boom" rfl rfl rfl

/-- C10 counterexample: the empty filename does not end in any known image
extension, yet the boundary validator returns it unchanged (the Python
truthiness guard skips empty strings) instead of appending .jpg. -/
theorem validate_filename_empty_string :
    validate_filename (some "") = some "" ∧ some "" ≠ some ("" ++ ".jpg") := by
  exact ⟨rfl, by decide⟩

/-- C10 amended: the boundary validator appends .jpg to every non-empty
filename not ending in a known image extension and keeps filenames that do
end in one; the empty filename is returned unchanged; the service maps an
extensionless filename hint to the default extension .jpg; and the filename
hint never influences the compression result or the encoder family sent to
the encoder, only the extension of the temporary input file (and the echoed
filename). -/
theorem filename_hint_scope :
    (∀ s : String, s ≠ "" →
        (known_exts.any fun ext => pyEndsWith (pyLower s) ext) = false →
        validate_filename (some s) = some (s ++ ".jpg")) ∧
    (∀ s : String, (known_exts.any fun ext => pyEndsWith (pyLower s) ext) = true →
        validate_filename (some s) = some s) ∧
    (∀ s : String, splitext_ext (pyLower s).data = [] → _get_file_extension s = ".jpg") ∧
    (∀ (img : Bytes) (fmt : String) (q : ℤ) (f₁ f₂ : String) (w : World)
        (st : ResourceState),
        (compress_image_from_bytes img fmt q f₁ w st).result =
          (compress_image_from_bytes img fmt q f₂ w st).result ∧
        (compress_image_from_bytes img fmt q f₁ w st).formatSent =
          (compress_image_from_bytes img fmt q f₂ w st).formatSent) ∧
    (∀ (img : Bytes) (fmt : String) (q : ℤ) (f : String) (w : World)
        (st : ResourceState),
        st.driver = true → w.imageValid = true →
        (compress_image_from_bytes img fmt q f w st).tempExtUsed =
          some (_get_file_extension f)) := by
  refine ⟨?_, ?_, ?_, ?_, ?_⟩
  · intro s hs hks
    simp only [validate_filename]
    rw [if_pos ⟨hs, hks⟩]
  · intro s hks
    simp only [validate_filename]
    rw [if_neg]
    rintro ⟨-, h2⟩
    rw [hks] at h2
    cases h2
  · intro s h
    unfold _get_file_extension
    simp [h]
  · intro img fmt q f₁ f₂ w st
    by_cases hd : st.driver = false ∧ w.driverOk = false
    · simp [compress_image_from_bytes, hd]
    · by_cases hi : w.imageValid = false
      · simp [compress_image_from_bytes, hd, hi]
      · cases hsq : w.squoosh (format_value fmt) q with
        | error msg => simp [compress_image_from_bytes, hd, hi, hsq]
        | downloaded bytes => simp [compress_image_from_bytes, hd, hi, hsq]
  · intro img fmt q f w st hdr hi
    cases hsq : w.squoosh (format_value fmt) q with
    | error msg => simp [compress_image_from_bytes, hdr, hi, hsq]
    | downloaded bytes => simp [compress_image_from_bytes, hdr, hi, hsq]

/-- Witness for C10 amended: photo has no known extension and gets .jpg
appended by the validator. -/
theorem filename_hint_scope_witness :
    validate_filename (some "photo") = some ("photo" ++ ".jpg") :=
  filename_hint_scope.1 "photo" (by decide) (by decide)

end Squoosh
